import Mathlib

/-!
Verification of the redeem-and-unstake message life-cycle of the
mosaic-contracts repository.

The sources available here are the integration-test assertion helpers
(`request_redeem_assertion.js`, `accept_redeem_assertion.js`), the unit
tests of `UtilityToken.increaseSupply`, and the `SimpleStake` contract.
The registry contracts themselves (`requestRedeem`, `acceptRedeem`,
`progressRedeem`, `revertRedeem`) are not part of the sources, so they are
modelled from the specification (sections 3, 4.1, 4.2, 4.3, 4.4 and 7 of
spec.md); every such definition carries a doc comment saying so.  The
assertion helpers, `SimpleStake.releaseTo` and the `UtilityToken` test
expectations are translated directly from the source files.
-/

namespace Mosaic

/-- Account identifiers are hex-address strings, as in the JS harness. -/
abbrev Addr := String

/-- The null address, `NullAddress` in the sources. -/
def zeroAddress : Addr := "0x0000000000000000000000000000000000000000"

/-- Association-list lookup; the first binding of the key wins. -/
def lookupA {κ α : Type} [DecidableEq κ] : List (κ × α) → κ → Option α
  | [], _ => none
  | (k2, v) :: t, k => if k2 = k then some v else lookupA t k

/-- Association-list update: replaces the first binding of the key, or
appends a new binding at the end. -/
def insertA {κ α : Type} [DecidableEq κ] : List (κ × α) → κ → α → List (κ × α)
  | [], k, v => [(k, v)]
  | (k2, w) :: t, k, v => if k2 = k then (k, v) :: t else (k2, w) :: insertA t k v

/-- A token ledger: account → unsigned balance, missing accounts hold 0.
Models the Balance Ledger of spec section 4.1 and the EIP20 balances read
through `balanceOf` in the harness. -/
abbrev Ledger := List (Addr × Nat)

/-- Balance Ledger query `balanceOf(account)` (spec section 4.1). -/
def balanceOf (l : Ledger) (a : Addr) : Nat := (lookupA l a).getD 0

/-- Write one account's balance. -/
def setBalance (l : Ledger) (a : Addr) (v : Nat) : Ledger := insertA l a v

/-- Modelled from the spec: `transfer(from, to, assetKind, amount)` of the
Balance Ledger (section 4.1).  Fails (`InsufficientBalance`, here `none`)
if the source balance is below `amt`; otherwise debits the source and
credits the destination atomically. -/
def transfer (l : Ledger) (fr to2 : Addr) (amt : Nat) : Option Ledger :=
  if balanceOf l fr < amt then none
  else
    let l2 := setBalance l fr (balanceOf l fr - amt)
    some (setBalance l2 to2 (balanceOf l2 to2 + amt))

/-- Lifecycle states of a redeem request (spec section 4.4):
Requested → Declared → Progressed or Reverted. -/
inductive MessageState
  | Requested
  | Declared
  | Progressed
  | Reverted
deriving DecidableEq

/-- A state is terminal when no further transition leaves it. -/
def MessageState.isTerminal : MessageState → Bool
  | MessageState.Progressed => true
  | MessageState.Reverted => true
  | _ => false

/-- Error taxonomy of spec section 7, extended with `InvalidAmount` for the
`amount > 0` constraint of section 4.2, for which the spec names no kind. -/
inductive RegistryError
  | InvalidNonce
  | InvalidBeneficiary
  | UnknownRequest
  | InvalidState
  | InsufficientBalance
  | InvalidUnlockSecret
  | Unauthorized
  | InvalidAmount
deriving DecidableEq

/-- The RedeemRequest record of spec section 3 and of the typedef in
`request_redeem_assertion.js`.  `facilitator` and `bounty` hold the
zero address and 0 until the accept step sets them. -/
structure RedeemRequest where
  amount : Nat
  gasPrice : Nat
  gasLimit : Nat
  nonce : Nat
  redeemer : Addr
  beneficiary : Addr
  facilitator : Addr
  bounty : Nat
  hashLock : Nat
  unlockSecret : Option Nat
deriving DecidableEq

/-- Decoded event payload values: address-valued or numeric fields. -/
inductive EvValue
  | addr (a : Addr)
  | num (n : Nat)
deriving DecidableEq

/-- A decoded event: named fields, as produced by the harness decoder. -/
abbrev EventData := List (String × EvValue)

/-- Modelled from the spec: the hash-lock commitment function of the
Hash-Lock Coordinator (section 4.3).  The concrete hash of the deployed
contracts (keccak256) is not part of the sources; an executable mixing
function stands in for it.  Every claim below depends only on the guard
comparing `computeHashLock unlockSecret` with the stored `hashLock`, not
on properties of the hash itself. -/
def computeHashLock (secret : Nat) : Nat :=
  (secret * 2654435761 + 2166136261) % 4294967296

/-- Accumulating fold for `addrCode`. -/
def addrCodeAux : Nat → List Char → Nat
  | h, [] => h
  | h, c :: t => addrCodeAux (h * 311 + c.toNat) t

/-- A numeric code for an address string, used by `messageHash`. -/
def addrCode (a : Addr) : Nat :=
  addrCodeAux 7 a.data

/-- Modelled from the spec: `messageHash` is a derived unique identifier,
a function of the request fields (spec section 3).  The concrete digest of
the deployed contracts is not part of the sources; an executable
combination of the fields stands in for it. -/
def messageHash (redeemer : Addr) (nonce amount gasPrice gasLimit : Nat)
    (beneficiary : Addr) (hashLock : Nat) : Nat :=
  ((((((addrCode redeemer) * 1000003 + nonce) * 1000003 + amount) * 1000003
    + gasPrice) * 1000003 + gasLimit) * 1000003 + addrCode beneficiary) * 1000003
    + hashLock

/-- The Redeem Request Registry state (spec sections 2 and 3): the two
ledgers (native asset and token), the stored requests keyed by message
hash together with their lifecycle state, the last-used nonce per
redeemer, and the distinguished escrow-pool and destination-representation
(cogateway) accounts. -/
structure Registry where
  baseToken : Ledger
  token : Ledger
  requests : List (Nat × (RedeemRequest × MessageState))
  lastNonce : List (Addr × Nat)
  pool : Addr
  cogateway : Addr
deriving DecidableEq

/-- Last-used nonce of a redeemer; 0 when the redeemer never requested. -/
def lastNonceOf (s : Registry) (redeemer : Addr) : Nat :=
  (lookupA s.lastNonce redeemer).getD 0

/-- Modelled from the spec: `requestRedeem` (section 4.2).  The registry
contract is not part of the sources.  Checks, in order: `beneficiary`
non-null (`InvalidBeneficiary`), `amount > 0` (`InvalidAmount`; the spec
names no kind for this constraint), `nonce` equal to the redeemer's
last-used nonce plus one (`InvalidNonce`), no `messageHash` collision
(collisions are rejected per section 3; the spec names no kind, so
`InvalidState` is used), and sufficient token balance for the escrow debit
plus sufficient native balance for the transaction fees
(`InsufficientBalance`).  Side effects: debits `amount` of token from the
redeemer to the escrow pool, deducts the transaction fees from the
redeemer's native balance, stores the new request in Requested state,
records the nonce, and emits `RedeemRequested` with the six fields
`redeemer, nonce, beneficiary, amount, gasPrice, gasLimit`. -/
def requestRedeem (s : Registry) (redeemer : Addr)
    (amount gasPrice gasLimit nonce : Nat) (beneficiary : Addr)
    (hashLock txFees : Nat) :
    Except RegistryError (Registry × Nat × EventData) :=
  if beneficiary = zeroAddress then Except.error RegistryError.InvalidBeneficiary
  else if amount = 0 then Except.error RegistryError.InvalidAmount
  else if nonce ≠ lastNonceOf s redeemer + 1 then
    Except.error RegistryError.InvalidNonce
  else
    let mh := messageHash redeemer nonce amount gasPrice gasLimit beneficiary hashLock
    if (lookupA s.requests mh).isSome then Except.error RegistryError.InvalidState
    else
      match transfer s.token redeemer s.pool amount with
      | none => Except.error RegistryError.InsufficientBalance
      | some tok =>
        if balanceOf s.baseToken redeemer < txFees then
          Except.error RegistryError.InsufficientBalance
        else
          let base := setBalance s.baseToken redeemer
            (balanceOf s.baseToken redeemer - txFees)
          let req : RedeemRequest :=
            { amount := amount, gasPrice := gasPrice, gasLimit := gasLimit,
              nonce := nonce, redeemer := redeemer, beneficiary := beneficiary,
              facilitator := zeroAddress, bounty := 0, hashLock := hashLock,
              unlockSecret := none }
          Except.ok
            ({ s with
                token := tok,
                baseToken := base,
                requests := insertA s.requests mh (req, MessageState.Requested),
                lastNonce := insertA s.lastNonce redeemer nonce },
             mh,
             [("redeemer", EvValue.addr redeemer),
              ("nonce", EvValue.num nonce),
              ("beneficiary", EvValue.addr beneficiary),
              ("amount", EvValue.num amount),
              ("gasPrice", EvValue.num gasPrice),
              ("gasLimit", EvValue.num gasLimit)])

/-- Modelled from the spec: `acceptRedeem` (section 4.2).  The registry
contract is not part of the sources.  Checks: the request exists
(`UnknownRequest`) and is in Requested state (`InvalidState`); the bounty
and escrow transfers must be covered (`InsufficientBalance`).  Side
effects: transfers `bounty` of native asset from the facilitator to the
destination representation (cogateway), transfers the escrowed `amount` of
token from the pool to the cogateway, records `facilitator` and `bounty`
on the request, transitions it to Declared, and emits
`RedeemIntentDeclared` with the underscore-prefixed field names that
`accept_redeem_assertion.js` reads. -/
def acceptRedeem (s : Registry) (mh : Nat) (facilitator : Addr) (bounty : Nat) :
    Except RegistryError (Registry × EventData) :=
  match lookupA s.requests mh with
  | none => Except.error RegistryError.UnknownRequest
  | some (req, st) =>
    if st ≠ MessageState.Requested then Except.error RegistryError.InvalidState
    else
      match transfer s.baseToken facilitator s.cogateway bounty with
      | none => Except.error RegistryError.InsufficientBalance
      | some base =>
        match transfer s.token s.pool s.cogateway req.amount with
        | none => Except.error RegistryError.InsufficientBalance
        | some tok =>
          Except.ok
            ({ s with
                baseToken := base,
                token := tok,
                requests := insertA s.requests mh
                  ({ req with
                      facilitator := facilitator,
                      bounty := bounty },
                   MessageState.Declared) },
             [("_redeemer", EvValue.addr req.redeemer),
              ("_redeemerNonce", EvValue.num req.nonce),
              ("_beneficiary", EvValue.addr req.beneficiary),
              ("_amount", EvValue.num req.amount)])

/-- Modelled from the spec: `progressRedeem` (section 4.2).  The registry
contract is not part of the sources.  Checks: the request exists
(`UnknownRequest`) and is Declared (`InvalidState`, which also rejects
re-entry into terminal states per section 4.4); the revealed secret must
commit to the stored hash lock (`InvalidUnlockSecret`).  Side effects:
records the unlock secret and transitions to Progressed; no balance
effect is listed for this operation in the spec. -/
def progressRedeem (s : Registry) (mh : Nat) (unlockSecret : Nat) :
    Except RegistryError Registry :=
  match lookupA s.requests mh with
  | none => Except.error RegistryError.UnknownRequest
  | some (req, st) =>
    if st ≠ MessageState.Declared then Except.error RegistryError.InvalidState
    else if computeHashLock unlockSecret ≠ req.hashLock then
      Except.error RegistryError.InvalidUnlockSecret
    else
      Except.ok
        { s with
            requests := insertA s.requests mh
              ({ req with unlockSecret := some unlockSecret },
               MessageState.Progressed) }

/-- Modelled from the spec: `revertRedeem` (section 4.2).  The registry
contract is not part of the sources.  The external timeout condition is a
Boolean input; the spec names no error kind for an unmet timeout, so
`InvalidState` is used.  Side effects: returns the escrowed tokens from
the destination representation to the redeemer, refunds the bounty from
the destination representation to the facilitator, and transitions to
Reverted. -/
def revertRedeem (s : Registry) (mh : Nat) (timeoutReached : Bool) :
    Except RegistryError Registry :=
  match lookupA s.requests mh with
  | none => Except.error RegistryError.UnknownRequest
  | some (req, st) =>
    if st ≠ MessageState.Declared then Except.error RegistryError.InvalidState
    else if timeoutReached = false then Except.error RegistryError.InvalidState
    else
      match transfer s.token s.cogateway req.redeemer req.amount with
      | none => Except.error RegistryError.InsufficientBalance
      | some tok =>
        match transfer s.baseToken s.cogateway req.facilitator req.bounty with
        | none => Except.error RegistryError.InsufficientBalance
        | some base =>
          Except.ok
            { s with
                token := tok,
                baseToken := base,
                requests := insertA s.requests mh (req, MessageState.Reverted) }

/-- Transactional run of `requestRedeem`: a failed call leaves the state
untouched (all-or-nothing semantics, spec sections 5 and 7). -/
def requestRedeemRun (s : Registry) (redeemer : Addr)
    (amount gasPrice gasLimit nonce : Nat) (beneficiary : Addr)
    (hashLock txFees : Nat) : Registry × Option RegistryError :=
  match requestRedeem s redeemer amount gasPrice gasLimit nonce beneficiary hashLock txFees with
  | Except.ok (s2, _, _) => (s2, none)
  | Except.error e => (s, some e)

/-- Transactional run of `acceptRedeem` (spec sections 5 and 7). -/
def acceptRedeemRun (s : Registry) (mh : Nat) (facilitator : Addr)
    (bounty : Nat) : Registry × Option RegistryError :=
  match acceptRedeem s mh facilitator bounty with
  | Except.ok (s2, _) => (s2, none)
  | Except.error e => (s, some e)

/-- Transactional run of `progressRedeem` (spec sections 5 and 7). -/
def progressRedeemRun (s : Registry) (mh unlockSecret : Nat) :
    Registry × Option RegistryError :=
  match progressRedeem s mh unlockSecret with
  | Except.ok s2 => (s2, none)
  | Except.error e => (s, some e)

/-- Transactional run of `revertRedeem` (spec sections 5 and 7). -/
def revertRedeemRun (s : Registry) (mh : Nat) (timeoutReached : Bool) :
    Registry × Option RegistryError :=
  match revertRedeem s mh timeoutReached with
  | Except.ok s2 => (s2, none)
  | Except.error e => (s, some e)

/-- The Registry operations of spec section 4.2, as a single step type:
transitions are only triggered by these operations (section 4.4). -/
inductive Op
  | request (redeemer : Addr) (amount gasPrice gasLimit nonce : Nat)
      (beneficiary : Addr) (hashLock txFees : Nat)
  | accept (mh : Nat) (facilitator : Addr) (bounty : Nat)
  | progress (mh unlockSecret : Nat)
  | revert (mh : Nat) (timeoutReached : Bool)

/-- One registry step under transactional semantics. -/
def applyOp (s : Registry) : Op → Registry × Option RegistryError
  | Op.request r a gp gl n b hl fees => requestRedeemRun s r a gp gl n b hl fees
  | Op.accept mh f b => acceptRedeemRun s mh f b
  | Op.progress mh sec => progressRedeemRun s mh sec
  | Op.revert mh t => revertRedeemRun s mh t

/-- Strict equality of an optional event field against an address, as in
`assert.strictEqual(eventData.x, value)`: an absent field (undefined in
the JS harness) never equals an address. -/
def strictEqAddr (v : Option EvValue) (a : Addr) : Bool :=
  match v with
  | some (EvValue.addr b) => b = a
  | _ => false

/-- ASCII lowercasing of one character, as JS `toLowerCase` acts on the
hex-address strings of the harness. -/
def lowerChar (c : Char) : Char :=
  if c.isUpper then Char.ofNat (c.toNat + 32) else c

/-- Structural lowercasing of a character list. -/
def lowerList : List Char → List Char
  | [] => []
  | c :: t => lowerChar c :: lowerList t

/-- JS `String.prototype.toLowerCase()` on an address string. -/
def toLowerCase (a : Addr) : String :=
  String.mk (lowerList a.data)

/-- Lowercased equality of an optional event field against an address, as
in `assert.strictEqual(eventData.x.toLowerCase(), value.toLowerCase())`;
an absent field fails the check. -/
def lcEqAddr (v : Option EvValue) (a : Addr) : Bool :=
  match v with
  | some (EvValue.addr b) => toLowerCase b = toLowerCase a
  | _ => false

/-- Comparison `BN.eq` of a stored number against an optional event field, as in
`redeemRequest.x.eq(eventData.x)`; an absent field fails the check. -/
def bnEqNum (x : Nat) (v : Option EvValue) : Bool :=
  match v with
  | some (EvValue.num n) => x = n
  | _ => false

/-- Translated from `RequestRedeemAssertion._assertRequestRedeemEvent`
(`request_redeem_assertion.js`, lines 167 to 210): the decoded
`RedeemRequested` event must carry `redeemer`, `nonce`, `beneficiary`,
`amount`, `gasPrice` and `gasLimit` matching the stored request; the two
address fields are compared by plain strict equality, the numeric fields
by `BN.eq`. -/
def assertRequestRedeemEvent (ev : EventData) (req : RedeemRequest) : Bool :=
  strictEqAddr (lookupA ev "redeemer") req.redeemer
  && bnEqNum req.nonce (lookupA ev "nonce")
  && strictEqAddr (lookupA ev "beneficiary") req.beneficiary
  && bnEqNum req.amount (lookupA ev "amount")
  && bnEqNum req.gasPrice (lookupA ev "gasPrice")
  && bnEqNum req.gasLimit (lookupA ev "gasLimit")

/-- Translated from `AcceptRedeemAssertion._assertRedeemEvent`
(`accept_redeem_assertion.js`, lines 190 to 219): the decoded
`RedeemIntentDeclared` event must carry `_redeemer`, `_redeemerNonce`,
`_beneficiary` and `_amount` matching the stored request; the two address
fields are lowercased on both sides before the equality test. -/
def assertRedeemEvent (ev : EventData) (req : RedeemRequest) : Bool :=
  lcEqAddr (lookupA ev "_redeemer") req.redeemer
  && bnEqNum req.nonce (lookupA ev "_redeemerNonce")
  && lcEqAddr (lookupA ev "_beneficiary") req.beneficiary
  && bnEqNum req.amount (lookupA ev "_amount")

/-- One category (baseToken or token) of a captured balance snapshot.
Each field is optional: reading a property that `captureBalances` never
wrote yields `none`, modelling `undefined` in the JS harness.  Values are
integers, modelling arbitrary-precision signed `BN`. -/
structure CategoryBalances where
  redeemPool : Option Int
  cogateway : Option Int
  facilitator : Option Int
  redeemer : Option Int
deriving DecidableEq

/-- A captured balance snapshot, as returned by
`AcceptRedeemAssertion.captureBalances`. -/
structure Balances where
  baseToken : CategoryBalances
  token : CategoryBalances
deriving DecidableEq

/-- Translated from `AcceptRedeemAssertion.captureBalances`
(`accept_redeem_assertion.js`, lines 92 to 106): records the native-asset
and token balances of the redeem pool, the cogateway and the facilitator.
No `redeemer` entry is ever written, so that field is `none`. -/
def captureBalances (ethLedger tokenLedger : Ledger)
    (redeemPoolAddr cogatewayAddr facilitator : Addr) : Balances :=
  { baseToken :=
      { redeemPool := some (balanceOf ethLedger redeemPoolAddr : Nat),
        cogateway := some (balanceOf ethLedger cogatewayAddr : Nat),
        facilitator := some (balanceOf ethLedger facilitator : Nat),
        redeemer := none },
    token :=
      { redeemPool := some (balanceOf tokenLedger redeemPoolAddr : Nat),
        facilitator := some (balanceOf tokenLedger facilitator : Nat),
        cogateway := some (balanceOf tokenLedger cogatewayAddr : Nat),
        redeemer := none } }

/-- A balance assertion outcome: `some b` when both operands were defined
and the `BN.eq` comparison evaluated to `b`; `none` when an operand was
`undefined`, in which case the JS harness never obtains a boolean from the
comparison. -/
def optCheckEq (x y : Option Int) : Option Bool :=
  match x, y with
  | some a, some b => some (a = b)
  | _, _ => none

/-- Translated from `AcceptRedeemAssertion._assertBalancesForRedeem`
(`accept_redeem_assertion.js`, lines 116 to 182): the six balance
assertions, in source order, applied to the initial snapshot and a final
snapshot.  Note the third and fourth assertions compute the expected pool
balances from `initialBalances.*.redeemPool` but read the final values
from `finalBalances.*.redeemer`, exactly as the source does. -/
def assertBalancesForRedeemChecks (req : RedeemRequest)
    (initial final : Balances) : List (Option Bool) :=
  [ optCheckEq (initial.baseToken.cogateway.map (fun v => v + (req.bounty : Int)))
      final.baseToken.cogateway,
    optCheckEq (initial.token.cogateway.map (fun v => v + (req.amount : Int)))
      final.token.cogateway,
    optCheckEq initial.baseToken.redeemPool final.baseToken.redeemer,
    optCheckEq (initial.token.redeemPool.map (fun v => v - (req.amount : Int)))
      final.token.redeemer,
    optCheckEq (initial.baseToken.facilitator.map (fun v => v - (req.bounty : Int)))
      final.baseToken.facilitator,
    optCheckEq initial.token.facilitator final.token.facilitator ]

/-- Translated from `AcceptRedeemAssertion._assertBalancesForRedeem`:
the final snapshot is recaptured with the request's facilitator and the
six checks are evaluated against it. -/
def assertBalancesForRedeem (req : RedeemRequest) (initial : Balances)
    (ethLedger tokenLedger : Ledger) (redeemPoolAddr cogatewayAddr : Addr) :
    List (Option Bool) :=
  assertBalancesForRedeemChecks req initial
    (captureBalances ethLedger tokenLedger redeemPoolAddr cogatewayAddr
      req.facilitator)

/-- Translated from `SimpleStake.releaseTo` (the SimpleStake contract in
the sources): only the gateway may call it; the value-token transfer from
the stake contract to `_to` must succeed; on success it emits
`ReleasedStake(msg.sender, _to, _amount)` and returns true.  There is no
zero-address check on `_to`: per the contract's doc comment the
beneficiary may be the zero address in order to burn tokens.  The EIP20
transfer itself follows the Balance Ledger semantics of spec section
4.1. -/
def releaseTo (valueToken : Ledger) (stakeAddr gateway sender to2 : Addr)
    (amount : Nat) : Except String (Ledger × (Addr × Addr × Nat)) :=
  if sender ≠ gateway then Except.error "Only gateway can call the function."
  else
    match transfer valueToken stakeAddr to2 amount with
    | none => Except.error "Value token transfer must success."
    | some l2 => Except.ok (l2, (sender, to2, amount))

/-- State of the UtilityToken contract: token balances, total supply, and
the configured CoGateway address. -/
structure UtilityToken where
  balances : Ledger
  totalSupply : Nat
  coGateway : Addr
deriving DecidableEq

/-- Modelled from the spec: the UtilityToken contract is not part of the
sources; its `increaseSupply` behaviour is taken from the expectations of
its unit tests in the sources (`UtilityToken.increaseSupply()` suite):
revert with `Only CoGateway can call the function.` for any other caller,
with `Account address should not be zero.` for a zero beneficiary, and
with `Amount should be greater than zero.` for a zero amount; otherwise
return true, credit the beneficiary, grow the total supply by `amount`,
and emit `Transfer(zeroAddress, beneficiary, amount)`. -/
def increaseSupply (t : UtilityToken) (sender beneficiary : Addr)
    (amount : Nat) :
    Except String (UtilityToken × Bool × (Addr × Addr × Nat)) :=
  if sender ≠ t.coGateway then
    Except.error "Only CoGateway can call the function."
  else if beneficiary = zeroAddress then
    Except.error "Account address should not be zero."
  else if amount = 0 then
    Except.error "Amount should be greater than zero."
  else
    Except.ok
      ({ t with
          balances := setBalance t.balances beneficiary
            (balanceOf t.balances beneficiary + amount),
          totalSupply := t.totalSupply + amount },
       true,
       (zeroAddress, beneficiary, amount))

/-- Concrete request used by the witnesses. -/
def wReq : RedeemRequest :=
  { amount := 10, gasPrice := 2, gasLimit := 3, nonce := 1, redeemer := "rr",
    beneficiary := "bb", facilitator := zeroAddress, bounty := 0,
    hashLock := 77, unlockSecret := none }

/-- Concrete registry holding `wReq` in Requested state. -/
def wRegistry : Registry :=
  { baseToken := [("ff", 100)], token := [("pp", 10)],
    requests := [(5, (wReq, MessageState.Requested))],
    lastNonce := [("rr", 1)], pool := "pp", cogateway := "cc" }

/-- The registry state after the witness `acceptRedeem` call. -/
def wAccepted : Registry :=
  match acceptRedeem wRegistry 5 "ff" 7 with
  | Except.ok (s2, _) => s2
  | Except.error _ => wRegistry

/-- The event emitted by the witness `acceptRedeem` call. -/
def wAcceptedEv : EventData :=
  match acceptRedeem wRegistry 5 "ff" 7 with
  | Except.ok (_, ev) => ev
  | Except.error _ => []

/-- A registry in which the redeemer `r2` holds token and native-asset
balances, used by the witnesses of the request path. -/
def wFunded : Registry :=
  { wRegistry with
      token := [("pp", 10), ("r2", 9)],
      baseToken := [("ff", 100), ("r2", 20)] }

/-- The registry state after the funded witness `requestRedeem` call. -/
def wFundedAfter : Registry :=
  match requestRedeem wFunded "r2" 4 2 3 1 "bb" 77 6 with
  | Except.ok (s2, _, _) => s2
  | Except.error _ => wFunded

/-- The message hash of the funded witness `requestRedeem` call. -/
def wFundedMh : Nat :=
  match requestRedeem wFunded "r2" 4 2 3 1 "bb" 77 6 with
  | Except.ok (_, mh, _) => mh
  | Except.error _ => 0

/-- The event of the funded witness `requestRedeem` call. -/
def wFundedEv : EventData :=
  match requestRedeem wFunded "r2" 4 2 3 1 "bb" 77 6 with
  | Except.ok (_, _, ev) => ev
  | Except.error _ => []

/-- The request record stored by a successful `requestRedeem`. -/
def mkRequest (redeemer : Addr) (amount gasPrice gasLimit nonce : Nat)
    (beneficiary : Addr) (hashLock : Nat) : RedeemRequest :=
  { amount := amount, gasPrice := gasPrice, gasLimit := gasLimit,
    nonce := nonce, redeemer := redeemer, beneficiary := beneficiary,
    facilitator := zeroAddress, bounty := 0, hashLock := hashLock,
    unlockSecret := none }

/-- A request in Declared state with a known hash lock, for witnesses. -/
def wDeclaredReq : RedeemRequest :=
  { wReq with
      facilitator := "ff",
      bounty := 7,
      hashLock := computeHashLock 5 }

/-- A registry holding `wDeclaredReq` in Declared state. -/
def wDeclared : Registry :=
  { wRegistry with requests := [(5, (wDeclaredReq, MessageState.Declared))] }

/-- A registry holding `wDeclaredReq` in the terminal Progressed state. -/
def wProgressed : Registry :=
  { wRegistry with requests := [(5, (wDeclaredReq, MessageState.Progressed))] }

/-- A stored request with lowercase addresses, for the C7 analysis. -/
def cexReq : RedeemRequest :=
  { amount := 10, gasPrice := 2, gasLimit := 3, nonce := 1,
    redeemer := "0xab", beneficiary := "0xcd", facilitator := "0xff",
    bounty := 7, hashLock := 0, unlockSecret := none }

/-- A decoded `RedeemRequested` event equal to `cexReq` up to address
case: the addresses are checksummed (upper-case) variants. -/
def cexEv : EventData :=
  [("redeemer", EvValue.addr "0xAB"),
   ("nonce", EvValue.num 1),
   ("beneficiary", EvValue.addr "0xCD"),
   ("amount", EvValue.num 10),
   ("gasPrice", EvValue.num 2),
   ("gasLimit", EvValue.num 3)]

/-- A concrete utility token with CoGateway `cg` and empty ledger. -/
def wUT : UtilityToken :=
  { balances := [], totalSupply := 0, coGateway := "cg" }

/-! ## Theorems -/

theorem lookupA_insertA {κ α : Type} [DecidableEq κ] (l : List (κ × α)) (k k2 : κ) (v : α) :
    lookupA (insertA l k v) k2 = if k = k2 then some v else lookupA l k2 := by
  induction l with
  | nil => simp only [insertA, lookupA]
  | cons p t ih =>
    obtain ⟨k3, w⟩ := p
    by_cases h3 : k3 = k
    · subst h3
      simp only [insertA, if_pos rfl, lookupA]
      by_cases h : k3 = k2
      · simp [h]
      · simp [h]
    · simp only [insertA, if_neg h3, lookupA]
      rw [ih]
      by_cases h2 : k3 = k2
      · by_cases h4 : k = k2
        · exact absurd (h2.trans h4.symm) h3
        · simp [h2, h4]
      · by_cases h4 : k = k2 <;> simp [h2, h4]

theorem balanceOf_setBalance (l : Ledger) (a b : Addr) (v : Nat) :
    balanceOf (setBalance l a v) b = if a = b then v else balanceOf l b := by
  by_cases h : a = b <;> simp [balanceOf, setBalance, lookupA_insertA, h]

theorem transfer_isSome (l : Ledger) (fr to2 : Addr) (amt : Nat) :
    (transfer l fr to2 amt).isSome = true ↔ amt ≤ balanceOf l fr := by
  by_cases h : balanceOf l fr < amt
  · simp only [transfer, if_pos h, Option.isSome_none]
    constructor
    · intro hc
      cases hc
    · intro hc
      exact ((Nat.lt_irrefl _ (Nat.lt_of_lt_of_le h hc)).elim)
  · simp only [transfer, if_neg h, Option.isSome_some]
    constructor
    · intro _
      omega
    · intro _
      trivial

theorem transfer_balances (l l2 : Ledger) (fr to2 : Addr) (amt : Nat)
    (h : transfer l fr to2 amt = some l2) (hne : fr ≠ to2) :
    balanceOf l2 fr + amt = balanceOf l fr
    ∧ balanceOf l2 to2 = balanceOf l to2 + amt
    ∧ ∀ x, x ≠ fr → x ≠ to2 → balanceOf l2 x = balanceOf l x := by
  by_cases hlt : balanceOf l fr < amt
  · simp [transfer, hlt] at h
  · simp only [transfer, if_neg hlt, Option.some.injEq] at h
    subst h
    have hfr : fr ≠ to2 := hne
    have hto : to2 ≠ fr := Ne.symm hne
    refine ⟨?_, ?_, ?_⟩
    · rw [balanceOf_setBalance, if_neg hto, balanceOf_setBalance, if_pos rfl]
      omega
    · rw [balanceOf_setBalance, if_pos rfl, balanceOf_setBalance, if_neg hfr]
    · intro x hxf hxt
      rw [balanceOf_setBalance, if_neg (Ne.symm hxt),
        balanceOf_setBalance, if_neg (Ne.symm hxf)]

/-- Claim C1: for every valid `acceptRedeem` call, comparing balances
captured immediately before and after the call, the pool's native-asset
balance is unchanged, the destination-representation (cogateway)
native-asset balance increases by exactly `bounty`, the cogateway token
balance increases by exactly `amount`, the facilitator's native-asset
balance decreases by exactly `bounty`, and the facilitator's token
balance is unchanged.  The three roles are distinct accounts. -/
theorem acceptRedeem_balance_deltas (s : Registry) (mh : Nat)
    (facilitator : Addr) (bounty : Nat) (s2 : Registry) (ev : EventData)
    (req : RedeemRequest) (st : MessageState)
    (hreq : lookupA s.requests mh = some (req, st))
    (hok : acceptRedeem s mh facilitator bounty = Except.ok (s2, ev))
    (h1 : s.pool ≠ s.cogateway) (h2 : facilitator ≠ s.cogateway)
    (h3 : facilitator ≠ s.pool) :
    balanceOf s2.baseToken s.pool = balanceOf s.baseToken s.pool
    ∧ balanceOf s2.baseToken s.cogateway = balanceOf s.baseToken s.cogateway + bounty
    ∧ balanceOf s2.token s.cogateway = balanceOf s.token s.cogateway + req.amount
    ∧ balanceOf s2.baseToken facilitator + bounty = balanceOf s.baseToken facilitator
    ∧ balanceOf s2.token facilitator = balanceOf s.token facilitator := by
  unfold acceptRedeem at hok
  rw [hreq] at hok
  by_cases hst : st = MessageState.Requested
  · subst hst
    simp only [ne_eq, not_true_eq_false, if_false, reduceIte] at hok
    cases hb : transfer s.baseToken facilitator s.cogateway bounty with
    | none => rw [hb] at hok; cases hok
    | some base =>
      rw [hb] at hok
      cases ht : transfer s.token s.pool s.cogateway req.amount with
      | none => rw [ht] at hok; cases hok
      | some tok =>
        rw [ht] at hok
        simp only [Except.ok.injEq, Prod.mk.injEq] at hok
        have hbase := transfer_balances s.baseToken base facilitator s.cogateway bounty hb h2
        have htok := transfer_balances s.token tok s.pool s.cogateway req.amount ht h1
        have hs2base : s2.baseToken = base := by rw [← hok.1]
        have hs2tok : s2.token = tok := by rw [← hok.1]
        refine ⟨?_, ?_, ?_, ?_, ?_⟩
        · rw [hs2base]
          exact hbase.2.2 s.pool (Ne.symm h3) h1
        · rw [hs2base]
          exact hbase.2.1
        · rw [hs2tok]
          exact htok.2.1
        · rw [hs2base]
          exact hbase.1
        · rw [hs2tok]
          exact htok.2.2 facilitator h3 h2
  · simp only [ne_eq, hst, not_false_eq_true, if_true, reduceIte] at hok
    cases hok

/-- Witness for C1 at a concrete accept call. -/
theorem acceptRedeem_balance_deltas_witness :
    balanceOf wAccepted.baseToken wRegistry.pool
      = balanceOf wRegistry.baseToken wRegistry.pool
    ∧ balanceOf wAccepted.baseToken wRegistry.cogateway
      = balanceOf wRegistry.baseToken wRegistry.cogateway + 7
    ∧ balanceOf wAccepted.token wRegistry.cogateway
      = balanceOf wRegistry.token wRegistry.cogateway + wReq.amount
    ∧ balanceOf wAccepted.baseToken "ff" + 7 = balanceOf wRegistry.baseToken "ff"
    ∧ balanceOf wAccepted.token "ff" = balanceOf wRegistry.token "ff" :=
  acceptRedeem_balance_deltas wRegistry 5 "ff" 7 wAccepted wAcceptedEv wReq
    MessageState.Requested (by decide) (by rfl) (by decide) (by decide)
    (by decide)

/-- Claim C2: for every valid `requestRedeem` call, comparing balances
captured immediately before and after the call, the redeemer's token
balance decreases by exactly `amount`, the pool's token balance increases
by exactly `amount`, the pool's native-asset balance is unchanged, and
the redeemer's native-asset balance decreases by exactly the transaction
fees of the call and nothing else. -/
theorem requestRedeem_balance_deltas (s : Registry) (redeemer : Addr)
    (amount gasPrice gasLimit nonce : Nat) (beneficiary : Addr)
    (hashLock txFees : Nat) (s2 : Registry) (mh : Nat) (ev : EventData)
    (hok : requestRedeem s redeemer amount gasPrice gasLimit nonce beneficiary
      hashLock txFees = Except.ok (s2, mh, ev))
    (h1 : redeemer ≠ s.pool) :
    balanceOf s2.token redeemer + amount = balanceOf s.token redeemer
    ∧ balanceOf s2.token s.pool = balanceOf s.token s.pool + amount
    ∧ balanceOf s2.baseToken s.pool = balanceOf s.baseToken s.pool
    ∧ balanceOf s2.baseToken redeemer + txFees = balanceOf s.baseToken redeemer := by
  unfold requestRedeem at hok
  by_cases hben : beneficiary = zeroAddress
  · simp only [hben, if_true, reduceIte] at hok; cases hok
  · rw [if_neg hben] at hok
    by_cases hamt : amount = 0
    · rw [if_pos hamt] at hok; cases hok
    · rw [if_neg hamt] at hok
      by_cases hn : nonce ≠ lastNonceOf s redeemer + 1
      · rw [if_pos hn] at hok; cases hok
      · rw [if_neg hn] at hok
        simp only [] at hok
        by_cases hcol : (lookupA s.requests
            (messageHash redeemer nonce amount gasPrice gasLimit beneficiary
              hashLock)).isSome
        · rw [if_pos hcol] at hok; cases hok
        · rw [if_neg hcol] at hok
          split at hok
          · cases hok
          · rename_i tok ht
            split at hok
            · cases hok
            · rename_i hfee
              simp only [Except.ok.injEq, Prod.mk.injEq] at hok
              have hs2tok : s2.token = tok := by rw [← hok.1]
              have hs2base : s2.baseToken = setBalance s.baseToken redeemer
                  (balanceOf s.baseToken redeemer - txFees) := by rw [← hok.1]
              have htok := transfer_balances s.token tok redeemer s.pool amount ht h1
              refine ⟨?_, ?_, ?_, ?_⟩
              · rw [hs2tok]
                exact htok.1
              · rw [hs2tok]
                exact htok.2.1
              · rw [hs2base, balanceOf_setBalance, if_neg h1]
              · rw [hs2base, balanceOf_setBalance, if_pos rfl]
                omega

set_option maxRecDepth 8192 in
/-- Witness for C2 at a concrete request call. -/
theorem requestRedeem_balance_deltas_witness :
    balanceOf wFundedAfter.token "r2" + 4 = balanceOf wFunded.token "r2"
    ∧ balanceOf wFundedAfter.token wFunded.pool
      = balanceOf wFunded.token wFunded.pool + 4
    ∧ balanceOf wFundedAfter.baseToken wFunded.pool
      = balanceOf wFunded.baseToken wFunded.pool
    ∧ balanceOf wFundedAfter.baseToken "r2" + 6
      = balanceOf wFunded.baseToken "r2" :=
  requestRedeem_balance_deltas wFunded "r2" 4 2 3 1 "bb" 77 6 wFundedAfter
    wFundedMh wFundedEv (by rfl) (by decide)

/-- Elimination of a successful `requestRedeem`: the nonce guard held, the
last-used nonce advanced to the call's nonce, the request is stored in
Requested state under the returned message hash, and the emitted
`RedeemRequested` event carries the six documented fields. -/
theorem requestRedeem_ok_spec (s : Registry) (redeemer : Addr)
    (amount gasPrice gasLimit nonce : Nat) (beneficiary : Addr)
    (hashLock txFees : Nat) (s2 : Registry) (mh : Nat) (ev : EventData)
    (hok : requestRedeem s redeemer amount gasPrice gasLimit nonce beneficiary
      hashLock txFees = Except.ok (s2, mh, ev)) :
    nonce = lastNonceOf s redeemer + 1
    ∧ lastNonceOf s2 redeemer = nonce
    ∧ lookupA s2.requests mh =
        some (mkRequest redeemer amount gasPrice gasLimit nonce beneficiary
          hashLock, MessageState.Requested)
    ∧ ev = [("redeemer", EvValue.addr redeemer),
            ("nonce", EvValue.num nonce),
            ("beneficiary", EvValue.addr beneficiary),
            ("amount", EvValue.num amount),
            ("gasPrice", EvValue.num gasPrice),
            ("gasLimit", EvValue.num gasLimit)] := by
  unfold requestRedeem at hok
  by_cases hben : beneficiary = zeroAddress
  · rw [if_pos hben] at hok; cases hok
  · rw [if_neg hben] at hok
    by_cases hamt : amount = 0
    · rw [if_pos hamt] at hok; cases hok
    · rw [if_neg hamt] at hok
      by_cases hn : nonce ≠ lastNonceOf s redeemer + 1
      · rw [if_pos hn] at hok; cases hok
      · rw [if_neg hn] at hok
        simp only [] at hok
        by_cases hcol : (lookupA s.requests
            (messageHash redeemer nonce amount gasPrice gasLimit beneficiary
              hashLock)).isSome
        · rw [if_pos hcol] at hok; cases hok
        · rw [if_neg hcol] at hok
          split at hok
          · cases hok
          · rename_i tok ht
            split at hok
            · cases hok
            · simp only [Except.ok.injEq, Prod.mk.injEq] at hok
              have hs2 := hok.1
              have hmh := hok.2.1
              have hev := hok.2.2
              refine ⟨not_ne_iff.mp hn, ?_, ?_, hev.symm⟩
              · rw [← hs2]
                simp [lastNonceOf, lookupA_insertA]
              · rw [← hs2, ← hmh]
                simp [lookupA_insertA, mkRequest]

/-- Reduction of `progressRedeem` on a Declared request: only the hash
guard remains. -/
theorem progressRedeem_declared (s : Registry) (mh sec : Nat)
    (req : RedeemRequest)
    (hreq : lookupA s.requests mh = some (req, MessageState.Declared)) :
    progressRedeem s mh sec =
      if computeHashLock sec ≠ req.hashLock then
        Except.error RegistryError.InvalidUnlockSecret
      else
        Except.ok
          { s with
              requests := insertA s.requests mh
                ({ req with unlockSecret := some sec },
                 MessageState.Progressed) } := by
  unfold progressRedeem
  rw [hreq]
  split
  · rename_i heq
    cases heq
  · rename_i r2 st2 heq
    rw [Option.some.injEq, Prod.mk.injEq] at heq
    obtain ⟨h1, h2⟩ := heq
    subst h1
    subst h2
    rw [if_neg (not_ne_iff.mpr rfl)]

/-- Claim C3: for a request in Declared state with stored commitment
`hashLock`, `progressRedeem` succeeds if and only if the revealed secret
hashes to `hashLock`; for every other secret it fails with
`InvalidUnlockSecret` and the whole registry state (balances and the
request's state) is exactly as before the call. -/
theorem progressRedeem_hash_lock (s : Registry) (mh sec : Nat)
    (req : RedeemRequest)
    (hreq : lookupA s.requests mh = some (req, MessageState.Declared)) :
    ((progressRedeemRun s mh sec).2 = none ↔ computeHashLock sec = req.hashLock)
    ∧ (computeHashLock sec ≠ req.hashLock →
        progressRedeemRun s mh sec = (s, some RegistryError.InvalidUnlockSecret)) := by
  have hred := progressRedeem_declared s mh sec req hreq
  unfold progressRedeemRun
  rw [hred]
  by_cases hh : computeHashLock sec = req.hashLock
  · rw [if_neg (not_ne_iff.mpr hh)]
    constructor
    · exact Iff.intro (fun _ => hh) (fun _ => rfl)
    · intro hne
      exact absurd hh hne
  · rw [if_pos hh]
    constructor
    · constructor
      · intro h
        cases h
      · intro he
        exact absurd he hh
    · intro _
      rfl

/-- Witness for C3: a wrong secret on a concrete Declared request. -/
theorem progressRedeem_hash_lock_witness :
    ((progressRedeemRun wDeclared 5 9).2 = none
      ↔ computeHashLock 9 = wDeclaredReq.hashLock)
    ∧ (computeHashLock 9 ≠ wDeclaredReq.hashLock →
        progressRedeemRun wDeclared 5 9
          = (wDeclared, some RegistryError.InvalidUnlockSecret)) :=
  progressRedeem_hash_lock wDeclared 5 9 wDeclaredReq (by decide)

/-- Rejection of a wrong nonce by `requestRedeem`: with a non-null
beneficiary and a positive amount, a nonce that is not the last-used
nonce plus one fails with `InvalidNonce`. -/
theorem requestRedeem_bad_nonce (s : Registry) (redeemer : Addr)
    (amount gasPrice gasLimit nonce : Nat) (beneficiary : Addr)
    (hashLock txFees : Nat) (hben : beneficiary ≠ zeroAddress)
    (hamt : amount ≠ 0) (hn : nonce ≠ lastNonceOf s redeemer + 1) :
    requestRedeem s redeemer amount gasPrice gasLimit nonce beneficiary
      hashLock txFees = Except.error RegistryError.InvalidNonce := by
  unfold requestRedeem
  rw [if_neg hben, if_neg hamt, if_pos hn]

/-- Claim C4: nonces of successful redeem requests strictly increase.  A
`requestRedeem` call succeeds only when its nonce is the redeemer's
last-used nonce plus one (and then records it); an otherwise well-formed
call whose nonce is not the last-used nonce plus one fails with
`InvalidNonce`; and after a successful call, any second call from the
same redeemer with a non-increasing nonce fails with `InvalidNonce`. -/
theorem requestRedeem_nonce_strictly_increasing (s : Registry)
    (redeemer : Addr) (amount gasPrice gasLimit nonce : Nat)
    (beneficiary : Addr) (hashLock txFees : Nat) :
    (∀ s2 mh ev,
      requestRedeem s redeemer amount gasPrice gasLimit nonce beneficiary
        hashLock txFees = Except.ok (s2, mh, ev) →
      nonce = lastNonceOf s redeemer + 1 ∧ lastNonceOf s2 redeemer = nonce)
    ∧ (beneficiary ≠ zeroAddress → amount ≠ 0 →
        nonce ≠ lastNonceOf s redeemer + 1 →
        requestRedeem s redeemer amount gasPrice gasLimit nonce beneficiary
          hashLock txFees = Except.error RegistryError.InvalidNonce)
    ∧ (∀ s2 mh ev,
        requestRedeem s redeemer amount gasPrice gasLimit nonce beneficiary
          hashLock txFees = Except.ok (s2, mh, ev) →
        ∀ amount2 gasPrice2 gasLimit2 nonce2 beneficiary2 hashLock2 txFees2,
          nonce2 ≤ nonce → beneficiary2 ≠ zeroAddress → amount2 ≠ 0 →
          requestRedeem s2 redeemer amount2 gasPrice2 gasLimit2 nonce2
            beneficiary2 hashLock2 txFees2
            = Except.error RegistryError.InvalidNonce) := by
  refine ⟨?_, ?_, ?_⟩
  · intro s2 mh ev hok
    have h := requestRedeem_ok_spec s redeemer amount gasPrice gasLimit nonce
      beneficiary hashLock txFees s2 mh ev hok
    exact ⟨h.1, h.2.1⟩
  · exact fun hben hamt hn =>
      requestRedeem_bad_nonce s redeemer amount gasPrice gasLimit nonce
        beneficiary hashLock txFees hben hamt hn
  · intro s2 mh ev hok amount2 gasPrice2 gasLimit2 nonce2 beneficiary2
      hashLock2 txFees2 hle hben2 hamt2
    have h := requestRedeem_ok_spec s redeemer amount gasPrice gasLimit nonce
      beneficiary hashLock txFees s2 mh ev hok
    refine requestRedeem_bad_nonce s2 redeemer amount2 gasPrice2 gasLimit2
      nonce2 beneficiary2 hashLock2 txFees2 hben2 hamt2 ?_
    rw [h.2.1]
    omega

set_option maxRecDepth 8192 in
/-- Witness for C4: a funded redeemer whose successful nonce-1 request is
followed by a repeated nonce-1 request, which fails with `InvalidNonce`. -/
theorem requestRedeem_nonce_strictly_increasing_witness :
    (1 = lastNonceOf wFunded "r2" + 1 ∧ lastNonceOf wFundedAfter "r2" = 1)
    ∧ requestRedeem wFundedAfter "r2" 4 2 3 1 "b2" 78 6
        = Except.error RegistryError.InvalidNonce :=
  ⟨(requestRedeem_nonce_strictly_increasing wFunded "r2" 4 2 3 1 "bb" 77
      6).1 wFundedAfter wFundedMh wFundedEv (by rfl),
   (requestRedeem_nonce_strictly_increasing wFunded "r2" 4 2 3 1 "bb" 77
      6).2.2 wFundedAfter wFundedMh wFundedEv (by rfl) 4 2 3 1 "b2" 78 6
     (by decide) (by decide) (by decide)⟩

/-- Calling `acceptRedeem` on a request that is not in Requested state fails with
`InvalidState`. -/
theorem acceptRedeem_not_requested (s : Registry) (mh : Nat) (fac : Addr)
    (bounty : Nat) (req : RedeemRequest) (st : MessageState)
    (hreq : lookupA s.requests mh = some (req, st))
    (hst : st ≠ MessageState.Requested) :
    acceptRedeem s mh fac bounty = Except.error RegistryError.InvalidState := by
  unfold acceptRedeem
  rw [hreq]
  split
  · rename_i heq
    cases heq
  · rename_i r2 st2 heq
    rw [Option.some.injEq, Prod.mk.injEq] at heq
    obtain ⟨h1, h2⟩ := heq
    subst h1
    subst h2
    rw [if_pos hst]

/-- Calling `progressRedeem` on a request that is not in Declared state fails with
`InvalidState`. -/
theorem progressRedeem_not_declared (s : Registry) (mh sec : Nat)
    (req : RedeemRequest) (st : MessageState)
    (hreq : lookupA s.requests mh = some (req, st))
    (hst : st ≠ MessageState.Declared) :
    progressRedeem s mh sec = Except.error RegistryError.InvalidState := by
  unfold progressRedeem
  rw [hreq]
  split
  · rename_i heq
    cases heq
  · rename_i r2 st2 heq
    rw [Option.some.injEq, Prod.mk.injEq] at heq
    obtain ⟨h1, h2⟩ := heq
    subst h1
    subst h2
    rw [if_pos hst]

/-- Calling `revertRedeem` on a request that is not in Declared state fails with
`InvalidState`. -/
theorem revertRedeem_not_declared (s : Registry) (mh : Nat) (tm : Bool)
    (req : RedeemRequest) (st : MessageState)
    (hreq : lookupA s.requests mh = some (req, st))
    (hst : st ≠ MessageState.Declared) :
    revertRedeem s mh tm = Except.error RegistryError.InvalidState := by
  unfold revertRedeem
  rw [hreq]
  split
  · rename_i heq
    cases heq
  · rename_i r2 st2 heq
    rw [Option.some.injEq, Prod.mk.injEq] at heq
    obtain ⟨h1, h2⟩ := heq
    subst h1
    subst h2
    rw [if_pos hst]

/-- Elimination of a successful `requestRedeem`, requests-map view: the
stored key was fresh and the requests map gained exactly the new entry. -/
theorem requestRedeem_ok_requests (s : Registry) (redeemer : Addr)
    (amount gasPrice gasLimit nonce : Nat) (beneficiary : Addr)
    (hashLock txFees : Nat) (s2 : Registry) (mh : Nat) (ev : EventData)
    (hok : requestRedeem s redeemer amount gasPrice gasLimit nonce beneficiary
      hashLock txFees = Except.ok (s2, mh, ev)) :
    lookupA s.requests mh = none
    ∧ s2.requests = insertA s.requests mh
        (mkRequest redeemer amount gasPrice gasLimit nonce beneficiary
          hashLock, MessageState.Requested) := by
  unfold requestRedeem at hok
  by_cases hben : beneficiary = zeroAddress
  · rw [if_pos hben] at hok; cases hok
  · rw [if_neg hben] at hok
    by_cases hamt : amount = 0
    · rw [if_pos hamt] at hok; cases hok
    · rw [if_neg hamt] at hok
      by_cases hn : nonce ≠ lastNonceOf s redeemer + 1
      · rw [if_pos hn] at hok; cases hok
      · rw [if_neg hn] at hok
        simp only [] at hok
        by_cases hcol : (lookupA s.requests
            (messageHash redeemer nonce amount gasPrice gasLimit beneficiary
              hashLock)).isSome
        · rw [if_pos hcol] at hok; cases hok
        · rw [if_neg hcol] at hok
          split at hok
          · cases hok
          · rename_i tok ht
            split at hok
            · cases hok
            · simp only [Except.ok.injEq, Prod.mk.injEq] at hok
              have hs2 := hok.1
              have hmh := hok.2.1
              constructor
              · rw [← hmh]
                exact Option.not_isSome_iff_eq_none.mp hcol
              · rw [← hs2, ← hmh]
                simp only [mkRequest]

/-- Elimination of a successful `acceptRedeem`, requests-map view: the
stored request was in Requested state and the map entry became the
Declared request with `facilitator` and `bounty` recorded. -/
theorem acceptRedeem_ok_spec (s : Registry) (mh : Nat) (fac : Addr)
    (bounty : Nat) (s2 : Registry) (ev : EventData)
    (hok : acceptRedeem s mh fac bounty = Except.ok (s2, ev)) :
    ∃ req, lookupA s.requests mh = some (req, MessageState.Requested)
      ∧ s2.requests = insertA s.requests mh
          ({ req with facilitator := fac, bounty := bounty },
           MessageState.Declared) := by
  cases hlook : lookupA s.requests mh with
  | none =>
    unfold acceptRedeem at hok
    rw [hlook] at hok
    cases hok
  | some p =>
    obtain ⟨req, st⟩ := p
    by_cases hst : st = MessageState.Requested
    · subst hst
      unfold acceptRedeem at hok
      rw [hlook] at hok
      simp only [ne_eq, not_true_eq_false, if_false, reduceIte] at hok
      cases hb : transfer s.baseToken fac s.cogateway bounty with
      | none => rw [hb] at hok; cases hok
      | some base =>
        rw [hb] at hok
        cases ht : transfer s.token s.pool s.cogateway req.amount with
        | none => rw [ht] at hok; cases hok
        | some tok =>
          rw [ht] at hok
          simp only [Except.ok.injEq, Prod.mk.injEq] at hok
          exact ⟨req, rfl, by rw [← hok.1]⟩
    · rw [acceptRedeem_not_requested s mh fac bounty req st hlook hst] at hok
      cases hok

/-- Elimination of a successful `progressRedeem`, requests-map view. -/
theorem progressRedeem_ok_spec (s : Registry) (mh sec : Nat) (s2 : Registry)
    (hok : progressRedeem s mh sec = Except.ok s2) :
    ∃ req, lookupA s.requests mh = some (req, MessageState.Declared)
      ∧ s2.requests = insertA s.requests mh
          ({ req with unlockSecret := some sec }, MessageState.Progressed) := by
  cases hlook : lookupA s.requests mh with
  | none =>
    unfold progressRedeem at hok
    rw [hlook] at hok
    cases hok
  | some p =>
    obtain ⟨req, st⟩ := p
    by_cases hst : st = MessageState.Declared
    · subst hst
      rw [progressRedeem_declared s mh sec req hlook] at hok
      by_cases hh : computeHashLock sec ≠ req.hashLock
      · rw [if_pos hh] at hok
        cases hok
      · rw [if_neg hh] at hok
        rw [Except.ok.injEq] at hok
        exact ⟨req, rfl, by rw [← hok]⟩
    · rw [progressRedeem_not_declared s mh sec req st hlook hst] at hok
      cases hok

/-- Elimination of a successful `revertRedeem`, requests-map view. -/
theorem revertRedeem_ok_spec (s : Registry) (mh : Nat) (tm : Bool)
    (s2 : Registry) (hok : revertRedeem s mh tm = Except.ok s2) :
    ∃ req, lookupA s.requests mh = some (req, MessageState.Declared)
      ∧ s2.requests = insertA s.requests mh (req, MessageState.Reverted) := by
  cases hlook : lookupA s.requests mh with
  | none =>
    unfold revertRedeem at hok
    rw [hlook] at hok
    cases hok
  | some p =>
    obtain ⟨req, st⟩ := p
    by_cases hst : st = MessageState.Declared
    · subst hst
      unfold revertRedeem at hok
      rw [hlook] at hok
      simp only [ne_eq, not_true_eq_false, if_false, reduceIte] at hok
      split at hok
      · cases hok
      · split at hok
        · cases hok
        · rename_i tok ht
          split at hok
          · cases hok
          · rename_i base hb
            rw [Except.ok.injEq] at hok
            exact ⟨req, rfl, by rw [← hok]⟩
    · rw [revertRedeem_not_declared s mh tm req st hlook hst] at hok
      cases hok

/-- Effect of one `requestRedeem` call on any stored entry: the entry is
unchanged, or it did not exist before the call (the collision check keeps
existing entries from being overwritten). -/
theorem requestRedeemRun_lookup_or (s : Registry) (redeemer : Addr)
    (amount gasPrice gasLimit nonce : Nat) (beneficiary : Addr)
    (hashLock txFees : Nat) (mh2 : Nat) :
    lookupA (requestRedeemRun s redeemer amount gasPrice gasLimit nonce
      beneficiary hashLock txFees).1.requests mh2 = lookupA s.requests mh2
    ∨ lookupA s.requests mh2 = none := by
  unfold requestRedeemRun
  cases hcall : requestRedeem s redeemer amount gasPrice gasLimit nonce
      beneficiary hashLock txFees with
  | error e => left; rfl
  | ok p =>
    obtain ⟨s2, mh, ev⟩ := p
    have h := requestRedeem_ok_requests s redeemer amount gasPrice gasLimit
      nonce beneficiary hashLock txFees s2 mh ev hcall
    by_cases hm : mh = mh2
    · subst hm
      right
      exact h.1
    · left
      show lookupA s2.requests mh2 = lookupA s.requests mh2
      rw [h.2, lookupA_insertA, if_neg hm]

/-- Effect of one `acceptRedeem` call on any stored entry: unchanged, or
a Requested entry that became the corresponding Declared entry. -/
theorem acceptRedeemRun_lookup_or (s : Registry) (mh : Nat) (fac : Addr)
    (bounty : Nat) (mh2 : Nat) :
    lookupA (acceptRedeemRun s mh fac bounty).1.requests mh2
      = lookupA s.requests mh2
    ∨ ∃ req, lookupA s.requests mh2 = some (req, MessageState.Requested)
        ∧ lookupA (acceptRedeemRun s mh fac bounty).1.requests mh2
          = some ({ req with facilitator := fac, bounty := bounty },
              MessageState.Declared) := by
  unfold acceptRedeemRun
  cases hcall : acceptRedeem s mh fac bounty with
  | error e => left; rfl
  | ok p =>
    obtain ⟨s2, ev⟩ := p
    obtain ⟨req, hreq, hs2⟩ := acceptRedeem_ok_spec s mh fac bounty s2 ev hcall
    by_cases hm : mh = mh2
    · subst hm
      right
      refine ⟨req, hreq, ?_⟩
      show lookupA s2.requests mh = _
      rw [hs2, lookupA_insertA, if_pos rfl]
    · left
      show lookupA s2.requests mh2 = lookupA s.requests mh2
      rw [hs2, lookupA_insertA, if_neg hm]

/-- Effect of one `progressRedeem` call on any stored entry: unchanged,
or a Declared entry that became the corresponding Progressed entry. -/
theorem progressRedeemRun_lookup_or (s : Registry) (mh sec : Nat)
    (mh2 : Nat) :
    lookupA (progressRedeemRun s mh sec).1.requests mh2
      = lookupA s.requests mh2
    ∨ ∃ req, lookupA s.requests mh2 = some (req, MessageState.Declared)
        ∧ lookupA (progressRedeemRun s mh sec).1.requests mh2
          = some ({ req with unlockSecret := some sec },
              MessageState.Progressed) := by
  unfold progressRedeemRun
  cases hcall : progressRedeem s mh sec with
  | error e => left; rfl
  | ok s2 =>
    obtain ⟨req, hreq, hs2⟩ := progressRedeem_ok_spec s mh sec s2 hcall
    by_cases hm : mh = mh2
    · subst hm
      right
      refine ⟨req, hreq, ?_⟩
      show lookupA s2.requests mh = _
      rw [hs2, lookupA_insertA, if_pos rfl]
    · left
      show lookupA s2.requests mh2 = lookupA s.requests mh2
      rw [hs2, lookupA_insertA, if_neg hm]

/-- Effect of one `revertRedeem` call on any stored entry: unchanged, or
a Declared entry that became the corresponding Reverted entry. -/
theorem revertRedeemRun_lookup_or (s : Registry) (mh : Nat) (tm : Bool)
    (mh2 : Nat) :
    lookupA (revertRedeemRun s mh tm).1.requests mh2
      = lookupA s.requests mh2
    ∨ ∃ req, lookupA s.requests mh2 = some (req, MessageState.Declared)
        ∧ lookupA (revertRedeemRun s mh tm).1.requests mh2
          = some (req, MessageState.Reverted) := by
  unfold revertRedeemRun
  cases hcall : revertRedeem s mh tm with
  | error e => left; rfl
  | ok s2 =>
    obtain ⟨req, hreq, hs2⟩ := revertRedeem_ok_spec s mh tm s2 hcall
    by_cases hm : mh = mh2
    · subst hm
      right
      refine ⟨req, hreq, ?_⟩
      show lookupA s2.requests mh = _
      rw [hs2, lookupA_insertA, if_pos rfl]
    · left
      show lookupA s2.requests mh2 = lookupA s.requests mh2
      rw [hs2, lookupA_insertA, if_neg hm]

/-- Claim C5: a redeem request never leaves a terminal state.  If the
entry at `mh` is Progressed or Reverted, each lifecycle operation on `mh`
(accept, progress, revert) fails with `InvalidState` and leaves the whole
registry state unchanged; and under any registry operation, an entry's
state either stays the same or moves along one of the allowed edges
Requested to Declared, Declared to Progressed, Declared to Reverted. -/
theorem redeem_request_terminal_states (s : Registry) (mh : Nat)
    (req : RedeemRequest) (st : MessageState) (fac : Addr) (bounty sec : Nat)
    (tm : Bool) (op : Op) (req2 : RedeemRequest) (st2 : MessageState)
    (hreq : lookupA s.requests mh = some (req, st)) :
    (st.isTerminal = true →
      acceptRedeemRun s mh fac bounty = (s, some RegistryError.InvalidState)
      ∧ progressRedeemRun s mh sec = (s, some RegistryError.InvalidState)
      ∧ revertRedeemRun s mh tm = (s, some RegistryError.InvalidState))
    ∧ (lookupA (applyOp s op).1.requests mh = some (req2, st2) →
        st2 = st
        ∨ (st = MessageState.Requested ∧ st2 = MessageState.Declared)
        ∨ (st = MessageState.Declared
            ∧ (st2 = MessageState.Progressed ∨ st2 = MessageState.Reverted))) := by
  constructor
  · intro hterm
    have hnr : st ≠ MessageState.Requested := by
      intro he
      rw [he] at hterm
      cases hterm
    have hnd : st ≠ MessageState.Declared := by
      intro he
      rw [he] at hterm
      cases hterm
    refine ⟨?_, ?_, ?_⟩
    · unfold acceptRedeemRun
      rw [acceptRedeem_not_requested s mh fac bounty req st hreq hnr]
    · unfold progressRedeemRun
      rw [progressRedeem_not_declared s mh sec req st hreq hnd]
    · unfold revertRedeemRun
      rw [revertRedeem_not_declared s mh tm req st hreq hnd]
  · intro hafter
    cases op with
    | request r a gp gl n b hl fees =>
      rcases requestRedeemRun_lookup_or s r a gp gl n b hl fees mh with
        h | h
      · rw [show applyOp s (Op.request r a gp gl n b hl fees)
            = requestRedeemRun s r a gp gl n b hl fees from rfl] at hafter
        rw [h, hreq] at hafter
        rw [Option.some.injEq, Prod.mk.injEq] at hafter
        exact Or.inl hafter.2.symm
      · rw [h] at hreq
        cases hreq
    | accept mh3 f b =>
      rcases acceptRedeemRun_lookup_or s mh3 f b mh with h | ⟨r3, h3, hnew⟩
      · rw [show applyOp s (Op.accept mh3 f b)
            = acceptRedeemRun s mh3 f b from rfl] at hafter
        rw [h, hreq] at hafter
        rw [Option.some.injEq, Prod.mk.injEq] at hafter
        exact Or.inl hafter.2.symm
      · rw [h3] at hreq
        rw [Option.some.injEq, Prod.mk.injEq] at hreq
        rw [show applyOp s (Op.accept mh3 f b)
            = acceptRedeemRun s mh3 f b from rfl] at hafter
        rw [hnew] at hafter
        rw [Option.some.injEq, Prod.mk.injEq] at hafter
        exact Or.inr (Or.inl ⟨hreq.2.symm, hafter.2.symm⟩)
    | progress mh3 sec3 =>
      rcases progressRedeemRun_lookup_or s mh3 sec3 mh with h | ⟨r3, h3, hnew⟩
      · rw [show applyOp s (Op.progress mh3 sec3)
            = progressRedeemRun s mh3 sec3 from rfl] at hafter
        rw [h, hreq] at hafter
        rw [Option.some.injEq, Prod.mk.injEq] at hafter
        exact Or.inl hafter.2.symm
      · rw [h3] at hreq
        rw [Option.some.injEq, Prod.mk.injEq] at hreq
        rw [show applyOp s (Op.progress mh3 sec3)
            = progressRedeemRun s mh3 sec3 from rfl] at hafter
        rw [hnew] at hafter
        rw [Option.some.injEq, Prod.mk.injEq] at hafter
        exact Or.inr (Or.inr ⟨hreq.2.symm, Or.inl hafter.2.symm⟩)
    | revert mh3 tm3 =>
      rcases revertRedeemRun_lookup_or s mh3 tm3 mh with h | ⟨r3, h3, hnew⟩
      · rw [show applyOp s (Op.revert mh3 tm3)
            = revertRedeemRun s mh3 tm3 from rfl] at hafter
        rw [h, hreq] at hafter
        rw [Option.some.injEq, Prod.mk.injEq] at hafter
        exact Or.inl hafter.2.symm
      · rw [h3] at hreq
        rw [Option.some.injEq, Prod.mk.injEq] at hreq
        rw [show applyOp s (Op.revert mh3 tm3)
            = revertRedeemRun s mh3 tm3 from rfl] at hafter
        rw [hnew] at hafter
        rw [Option.some.injEq, Prod.mk.injEq] at hafter
        exact Or.inr (Or.inr ⟨hreq.2.symm, Or.inr hafter.2.symm⟩)

/-- Witness for C5: on a concrete Progressed request, a second progress,
an accept and a revert all fail with `InvalidState` and leave the state
unchanged. -/
theorem redeem_request_terminal_states_witness :
    acceptRedeemRun wProgressed 5 "ff" 7
      = (wProgressed, some RegistryError.InvalidState)
    ∧ progressRedeemRun wProgressed 5 9
      = (wProgressed, some RegistryError.InvalidState)
    ∧ revertRedeemRun wProgressed 5 true
      = (wProgressed, some RegistryError.InvalidState) :=
  (redeem_request_terminal_states wProgressed 5 wDeclaredReq
    MessageState.Progressed "ff" 7 9 true (Op.progress 5 9) wDeclaredReq
    MessageState.Progressed (by decide)).1 (by decide)

/-- Claim C6: every successful `requestRedeem` emits a `RedeemRequested`
event in which all six fields `redeemer, nonce, beneficiary, amount,
gasPrice, gasLimit` are present and equal to the corresponding fields of
the stored redeem request, so the event passes the source's
`_assertRequestRedeemEvent` check against the stored request. -/
theorem requestRedeem_event_fields (s : Registry) (redeemer : Addr)
    (amount gasPrice gasLimit nonce : Nat) (beneficiary : Addr)
    (hashLock txFees : Nat) (s2 : Registry) (mh : Nat) (ev : EventData)
    (hok : requestRedeem s redeemer amount gasPrice gasLimit nonce beneficiary
      hashLock txFees = Except.ok (s2, mh, ev)) :
    ∃ req, lookupA s2.requests mh = some (req, MessageState.Requested)
      ∧ lookupA ev "redeemer" = some (EvValue.addr req.redeemer)
      ∧ lookupA ev "nonce" = some (EvValue.num req.nonce)
      ∧ lookupA ev "beneficiary" = some (EvValue.addr req.beneficiary)
      ∧ lookupA ev "amount" = some (EvValue.num req.amount)
      ∧ lookupA ev "gasPrice" = some (EvValue.num req.gasPrice)
      ∧ lookupA ev "gasLimit" = some (EvValue.num req.gasLimit)
      ∧ assertRequestRedeemEvent ev req = true := by
  have h := requestRedeem_ok_spec s redeemer amount gasPrice gasLimit nonce
    beneficiary hashLock txFees s2 mh ev hok
  refine ⟨mkRequest redeemer amount gasPrice gasLimit nonce beneficiary
    hashLock, h.2.2.1, ?_⟩
  rw [h.2.2.2]
  refine ⟨?_, ?_, ?_, ?_, ?_, ?_, ?_⟩ <;>
    simp [lookupA, mkRequest, assertRequestRedeemEvent, strictEqAddr, bnEqNum]

/-- The `RedeemRequested` event emitted by the funded witness call passes
the source assertion with every field present: witness for C6. -/
theorem requestRedeem_event_fields_witness :
    ∃ req, lookupA wFundedAfter.requests wFundedMh
        = some (req, MessageState.Requested)
      ∧ lookupA wFundedEv "redeemer" = some (EvValue.addr req.redeemer)
      ∧ lookupA wFundedEv "nonce" = some (EvValue.num req.nonce)
      ∧ lookupA wFundedEv "beneficiary" = some (EvValue.addr req.beneficiary)
      ∧ lookupA wFundedEv "amount" = some (EvValue.num req.amount)
      ∧ lookupA wFundedEv "gasPrice" = some (EvValue.num req.gasPrice)
      ∧ lookupA wFundedEv "gasLimit" = some (EvValue.num req.gasLimit)
      ∧ assertRequestRedeemEvent wFundedEv req = true :=
  requestRedeem_event_fields wFunded "r2" 4 2 3 1 "bb" 77 6 wFundedAfter
    wFundedMh wFundedEv (by rfl)

/-- Counterexample to claim C7: the `RedeemRequested` assertion is not
case-insensitive.  An event whose redeemer and beneficiary differ from
the stored request only in letter case fails
`assertRequestRedeemEvent`, although both addresses agree after
lowercasing (as the case-insensitive comparison of the
`RedeemIntentDeclared` assertion would accept). -/
theorem requestRedeemEvent_not_case_insensitive :
    assertRequestRedeemEvent cexEv cexReq = false
    ∧ lcEqAddr (lookupA cexEv "redeemer") cexReq.redeemer = true
    ∧ lcEqAddr (lookupA cexEv "beneficiary") cexReq.beneficiary = true := by
  decide

/-- Claim C7 (amended): only the `RedeemIntentDeclared` assertion
compares the redeemer and beneficiary case-insensitively — replacing the
stored addresses by variants with the same lowercasing never changes its
verdict — whereas the `RedeemRequested` assertion compares them by strict
case-sensitive equality: it accepts an event only when the event's
redeemer and beneficiary are literally the stored strings. -/
theorem event_address_comparison (ev : EventData) (req : RedeemRequest)
    (r2 b2 : Addr)
    (hr : toLowerCase r2 = toLowerCase req.redeemer)
    (hb : toLowerCase b2 = toLowerCase req.beneficiary) :
    assertRedeemEvent ev { req with redeemer := r2, beneficiary := b2 }
      = assertRedeemEvent ev req
    ∧ (assertRequestRedeemEvent ev req = true →
        lookupA ev "redeemer" = some (EvValue.addr req.redeemer)
        ∧ lookupA ev "beneficiary" = some (EvValue.addr req.beneficiary)) := by
  constructor
  · have h1 : ∀ v, lcEqAddr v r2 = lcEqAddr v req.redeemer := by
      intro v
      unfold lcEqAddr
      cases v with
      | none => rfl
      | some x =>
        cases x with
        | addr c => rw [hr]
        | num n => rfl
    have h2 : ∀ v, lcEqAddr v b2 = lcEqAddr v req.beneficiary := by
      intro v
      unfold lcEqAddr
      cases v with
      | none => rfl
      | some x =>
        cases x with
        | addr c => rw [hb]
        | num n => rfl
    show (lcEqAddr (lookupA ev "_redeemer") r2
        && bnEqNum req.nonce (lookupA ev "_redeemerNonce")
        && lcEqAddr (lookupA ev "_beneficiary") b2
        && bnEqNum req.amount (lookupA ev "_amount"))
      = assertRedeemEvent ev req
    rw [h1, h2]
    rfl
  · intro h
    unfold assertRequestRedeemEvent at h
    rw [Bool.and_eq_true, Bool.and_eq_true, Bool.and_eq_true,
      Bool.and_eq_true, Bool.and_eq_true] at h
    have hred := h.1.1.1.1.1
    have hben := h.1.1.1.2
    constructor
    · cases hl : lookupA ev "redeemer" with
      | none => rw [hl] at hred; cases hred
      | some x =>
        cases x with
        | num n =>
          rw [hl] at hred
          cases hred
        | addr c =>
          rw [hl] at hred
          simp only [strictEqAddr, decide_eq_true_eq] at hred
          rw [hred]
    · cases hl : lookupA ev "beneficiary" with
      | none => rw [hl] at hben; cases hben
      | some x =>
        cases x with
        | num n =>
          rw [hl] at hben
          cases hben
        | addr c =>
          rw [hl] at hben
          simp only [strictEqAddr, decide_eq_true_eq] at hben
          rw [hben]

/-- Witness for the amended C7 at concrete, case-differing addresses. -/
theorem event_address_comparison_witness :
    assertRedeemEvent cexEv
        { cexReq with redeemer := "0xAB", beneficiary := "0xCD" }
      = assertRedeemEvent cexEv cexReq
    ∧ (assertRequestRedeemEvent cexEv cexReq = true →
        lookupA cexEv "redeemer" = some (EvValue.addr cexReq.redeemer)
        ∧ lookupA cexEv "beneficiary"
            = some (EvValue.addr cexReq.beneficiary)) :=
  event_address_comparison cexEv cexReq "0xAB" "0xCD" (by decide) (by decide)

/-- Claim C8: zero-address beneficiary handling is asymmetric between the
two paths.  `requestRedeem` rejects a null beneficiary with
`InvalidBeneficiary` for every input, while `SimpleStake.releaseTo`,
called by the gateway with a zero-address beneficiary, succeeds exactly
when the underlying value-token transfer succeeds, crediting (burning)
the amount to the zero address and emitting
`ReleasedStake(gateway, zeroAddress, amount)`. -/
theorem zero_beneficiary_asymmetry (s : Registry) (redeemer : Addr)
    (amount gasPrice gasLimit nonce hashLock txFees : Nat)
    (l : Ledger) (stakeAddr gateway : Addr) (amt2 : Nat)
    (hne : stakeAddr ≠ zeroAddress) :
    requestRedeem s redeemer amount gasPrice gasLimit nonce zeroAddress
        hashLock txFees = Except.error RegistryError.InvalidBeneficiary
    ∧ ((releaseTo l stakeAddr gateway gateway zeroAddress amt2).isOk = true
        ↔ amt2 ≤ balanceOf l stakeAddr)
    ∧ (∀ l2 evr,
        releaseTo l stakeAddr gateway gateway zeroAddress amt2
          = Except.ok (l2, evr) →
        balanceOf l2 zeroAddress = balanceOf l zeroAddress + amt2
        ∧ evr = (gateway, zeroAddress, amt2)) := by
  refine ⟨?_, ?_, ?_⟩
  · unfold requestRedeem
    rw [if_pos rfl]
  · unfold releaseTo
    rw [if_neg (not_ne_iff.mpr rfl)]
    cases htr : transfer l stakeAddr zeroAddress amt2 with
    | none =>
      have hs := transfer_isSome l stakeAddr zeroAddress amt2
      rw [htr] at hs
      simp only [Option.isSome_none, Bool.false_eq_true, false_iff] at hs
      constructor
      · intro hc
        cases hc
      · intro hc
        exact absurd hc hs
    | some l2 =>
      have hs := transfer_isSome l stakeAddr zeroAddress amt2
      rw [htr] at hs
      simp only [Option.isSome_some, true_iff] at hs
      constructor
      · intro _
        exact hs
      · intro _
        rfl
  · intro l2 evr hok
    unfold releaseTo at hok
    rw [if_neg (not_ne_iff.mpr rfl)] at hok
    cases htr : transfer l stakeAddr zeroAddress amt2 with
    | none =>
      rw [htr] at hok
      cases hok
    | some l3 =>
      rw [htr] at hok
      rw [Except.ok.injEq, Prod.mk.injEq] at hok
      have hbal := transfer_balances l l3 stakeAddr zeroAddress amt2 htr hne
      constructor
      · rw [← hok.1]
        exact hbal.2.1
      · exact hok.2.symm

/-- Witness for C8: a concrete funded stake releases 10 tokens to the
zero address, while a concrete `requestRedeem` with zero-address
beneficiary is rejected. -/
theorem zero_beneficiary_asymmetry_witness :
    requestRedeem wRegistry "rr" 10 2 3 2 zeroAddress 77 4
      = Except.error RegistryError.InvalidBeneficiary
    ∧ ((releaseTo [("st", 30)] "st" "gw" "gw" zeroAddress 10).isOk = true
        ↔ 10 ≤ balanceOf [("st", 30)] "st")
    ∧ (∀ l2 evr,
        releaseTo [("st", 30)] "st" "gw" "gw" zeroAddress 10
          = Except.ok (l2, evr) →
        balanceOf l2 zeroAddress = balanceOf [("st", 30)] zeroAddress + 10
        ∧ evr = ("gw", zeroAddress, 10)) :=
  zero_beneficiary_asymmetry wRegistry "rr" 10 2 3 2 77 4 [("st", 30)]
    "st" "gw" 10 (by decide)

/-- Claim C9: `AcceptRedeemAssertion.captureBalances` never defines the
`redeemer` entries, so the pool-balance assertions of
`_assertBalancesForRedeem` — which read `finalBalances.baseToken.redeemer`
and `finalBalances.token.redeemer` — compare their expected pool values
against an undefined value and never produce a boolean verdict; moreover
no check in the list depends on the actual final pool balances. -/
theorem acceptRedeem_pool_assertion_undefined (req : RedeemRequest)
    (initial : Balances) (ethLedger tokenLedger : Ledger)
    (redeemPoolAddr cogatewayAddr : Addr) (v w : Option Int) :
    (captureBalances ethLedger tokenLedger redeemPoolAddr cogatewayAddr
        req.facilitator).baseToken.redeemer = none
    ∧ (captureBalances ethLedger tokenLedger redeemPoolAddr cogatewayAddr
        req.facilitator).token.redeemer = none
    ∧ (assertBalancesForRedeem req initial ethLedger tokenLedger
        redeemPoolAddr cogatewayAddr)[2]? = some none
    ∧ (assertBalancesForRedeem req initial ethLedger tokenLedger
        redeemPoolAddr cogatewayAddr)[3]? = some none
    ∧ (∀ final : Balances,
        assertBalancesForRedeemChecks req initial
          { final with
              baseToken := { final.baseToken with redeemPool := v },
              token := { final.token with redeemPool := w } }
        = assertBalancesForRedeemChecks req initial final) := by
  refine ⟨rfl, rfl, ?_, ?_, ?_⟩
  · show some (optCheckEq initial.baseToken.redeemPool none) = some none
    cases initial.baseToken.redeemPool <;> rfl
  · show some (optCheckEq (initial.token.redeemPool.map
        (fun x => x - (req.amount : Int))) none) = some none
    cases initial.token.redeemPool <;> rfl
  · intro final
    rfl

/-- Claim C10: `UtilityToken.increaseSupply` reverts when the beneficiary
is the zero address, when the amount is zero, or when the caller is not
the configured CoGateway; called by the CoGateway with a non-zero
beneficiary and non-zero amount it returns true, increases the
beneficiary's balance and the total supply by exactly `amount`, and emits
a `Transfer` event from the zero address to the beneficiary with value
`amount`. -/
theorem increaseSupply_spec (t : UtilityToken) (sender beneficiary : Addr)
    (amount : Nat) :
    (sender = t.coGateway → beneficiary = zeroAddress →
      increaseSupply t sender beneficiary amount
        = Except.error "Account address should not be zero.")
    ∧ (sender = t.coGateway → beneficiary ≠ zeroAddress → amount = 0 →
        increaseSupply t sender beneficiary amount
          = Except.error "Amount should be greater than zero.")
    ∧ (sender ≠ t.coGateway →
        increaseSupply t sender beneficiary amount
          = Except.error "Only CoGateway can call the function.")
    ∧ (sender = t.coGateway → beneficiary ≠ zeroAddress → amount ≠ 0 →
        ∃ t2, increaseSupply t sender beneficiary amount
            = Except.ok (t2, true, (zeroAddress, beneficiary, amount))
          ∧ balanceOf t2.balances beneficiary
              = balanceOf t.balances beneficiary + amount
          ∧ t2.totalSupply = t.totalSupply + amount) := by
  refine ⟨?_, ?_, ?_, ?_⟩
  · intro hs hb
    unfold increaseSupply
    rw [if_neg (not_ne_iff.mpr hs), if_pos hb]
  · intro hs hb ha
    unfold increaseSupply
    rw [if_neg (not_ne_iff.mpr hs), if_neg hb, if_pos ha]
  · intro hs
    unfold increaseSupply
    rw [if_pos hs]
  · intro hs hb ha
    refine ⟨{ t with
        balances := setBalance t.balances beneficiary
          (balanceOf t.balances beneficiary + amount),
        totalSupply := t.totalSupply + amount }, ?_, ?_, rfl⟩
    · unfold increaseSupply
      rw [if_neg (not_ne_iff.mpr hs), if_neg hb, if_neg ha]
    · rw [balanceOf_setBalance, if_pos rfl]

/-- Witness for C10: the three concrete revert cases and the concrete
success case of `increaseSupply` on `wUT`. -/
theorem increaseSupply_spec_witness :
    increaseSupply wUT "cg" zeroAddress 1000
      = Except.error "Account address should not be zero."
    ∧ increaseSupply wUT "cg" "bn" 0
      = Except.error "Amount should be greater than zero."
    ∧ increaseSupply wUT "xx" "bn" 1000
      = Except.error "Only CoGateway can call the function."
    ∧ ∃ t2, increaseSupply wUT "cg" "bn" 1000
          = Except.ok (t2, true, (zeroAddress, "bn", 1000))
        ∧ balanceOf t2.balances "bn" = balanceOf wUT.balances "bn" + 1000
        ∧ t2.totalSupply = wUT.totalSupply + 1000 :=
  ⟨(increaseSupply_spec wUT "cg" zeroAddress 1000).1 rfl rfl,
   (increaseSupply_spec wUT "cg" "bn" 0).2.1 rfl (by decide) rfl,
   (increaseSupply_spec wUT "xx" "bn" 1000).2.2.1 (by decide),
   (increaseSupply_spec wUT "cg" "bn" 1000).2.2.2 rfl (by decide) (by decide)⟩

end Mosaic
